import Mathlib

/-!
# Statistics module of the DNS filtering server: the HTTP boundary

A shallow embedding of `stats/stats.go` and `stats/stats_http.go`.

The handlers are methods of `*statsCtx`.  These two files hold the
handlers, `httpError`, `initWeb`, `Config`, `DiskConfig` and `TimeUnit`; the
declaration of `statsCtx` and the bodies of `getData`, `setLimit`, `clear`
and `checkInterval` live elsewhere in the package.  Those four enter the
embedding as fields of `Engine`, over which every handler is parametric.

Effects are made explicit:
* the mutable receiver is threaded through `Proc.s`;
* each call a handler makes into the engine, the logger or a host callback
  is appended to `Proc.calls`, oldest first;
* a call through a nil function value sets `Proc.panicked` and stops;
* what a handler does to its `http.ResponseWriter` is kept in
  `ResponseWriter`.
-/

namespace stats

/-! ## stats.go -/

/-- TimeUnit - time unit.  `Hours` is `iota` (0), `Days` is 1. -/
inductive TimeUnit
  | Hours
  | Days
deriving DecidableEq, Repr

/-- A Go function value stored in `Config` by the host application: either
nil, or a function whose body lies outside this module.  Calling the latter
is recorded in the call trace; calling the former panics. -/
inductive Func
  | nil
  | host
deriving DecidableEq, Repr

/-- DiskConfig - configuration settings that are stored on disk.
`Interval` is a uint32: time interval for statistics (in days). -/
structure DiskConfig where
  Interval : Nat
deriving DecidableEq, Repr

/-- Config - module configuration.  `LimitDays` is a uint32; `UnitID`,
`ConfigModified` and `HTTPRegister` are function values. -/
structure Config where
  Filename : String
  LimitDays : Nat
  UnitID : Func
  ConfigModified : Func
  HTTPRegister : Func
deriving DecidableEq, Repr

/-- The receiver of the handlers.  Its declaration is not among the sources;
the two fields the handlers read are taken from their uses there: `s.limit`
(a uint32, in hours: it is divided by 24 to give days) and `s.conf` (the
`Config`).  Whatever else the engine keeps is the parameter `σ`. -/
structure statsCtx (σ : Type) where
  limit : Nat
  conf : Config
  rest : σ

/-! ## stats_http.go: data -/

/-- The JSON document `{"interval": n}` of stats_http.go; `IntervalDays` is
a uint32. -/
structure config where
  IntervalDays : Nat
deriving DecidableEq, Repr

/-- The four function literals that `initWeb` hands to `HTTPRegister`, each
named after the handler it calls. -/
inductive Closure
  | callsHandleStats
  | callsHandleStatsReset
  | callsHandleStatsConfig
  | callsHandleStatsInfo
deriving DecidableEq, Repr

/-- One entry of the call trace: a call made by the code of stats_http.go
into the logger, the engine or a host callback. -/
inductive Call
  | startTimer
  | logElapsed (msg : String)
  | logInfo (text : String)
  | getData (units : TimeUnit)
  | checkInterval (days : Nat)
  | setLimit (limitDays : Int)
  | clear
  | ConfigModified
  | HTTPRegister (method url : String) (handler : Closure)
deriving DecidableEq, Repr

/-- The part of `*http.Request` the handlers use. -/
structure Request where
  Method : String
  URL : String
  Body : String
deriving DecidableEq, Repr

/-- What a handler has done to its `http.ResponseWriter`: the header map,
the status code once it is written (`none` before), and the data handed to
`Write`, in order.  `writeErr` is the error the transport reports from
`Write` (`none` when it reports none); it belongs to the environment. -/
structure ResponseWriter where
  header : List (String × String)
  status : Option Nat
  body : String
  writeErr : Option String
deriving DecidableEq, Repr

/-- The writer a handler is given for a new request. -/
def ResponseWriter.fresh (writeErr : Option String) : ResponseWriter :=
  { header := [], status := none, body := "", writeErr := writeErr }

/-- Models `w.Header().Set(key, value)`. -/
def ResponseWriter.setHeader (w : ResponseWriter) (key value : String) : ResponseWriter :=
  { w with header := (key, value) :: w.header.filter (fun kv => kv.1 != key) }

/-- Models `w.WriteHeader(code)`: only the first call sets the status. -/
def ResponseWriter.WriteHeader (w : ResponseWriter) (code : Nat) : ResponseWriter :=
  match w.status with
  | some _ => w
  | none => { w with status := some code }

/-- Models `w.Write(data)`: writes the header with status 200 when none has
been written yet, takes the data, and returns the transport's error. -/
def ResponseWriter.Write (w : ResponseWriter) (data : String) : ResponseWriter × Option String :=
  let w1 := w.WriteHeader 200
  ({ w1 with body := w1.body ++ data }, w1.writeErr)

/-- Models `http.Error(w, text, code)` of net/http: two header fields, the
status code, then the text and a newline. -/
def ResponseWriter.Error (w : ResponseWriter) (text : String) (code : Nat) : ResponseWriter :=
  let w1 := w.setHeader "Content-Type" "text/plain; charset=utf-8"
  let w2 := w1.setHeader "X-Content-Type-Options" "nosniff"
  let w3 := w2.WriteHeader code
  (w3.Write (text ++ "\n")).1

/-- The status line the client receives: a handler that returns without
writing one gets 200 from the server. -/
def ResponseWriter.code (w : ResponseWriter) : Nat :=
  w.status.getD 200

/-- Models `json.Marshal` on a `config` value, which cannot fail. -/
def jsonMarshalConfig (c : config) : Except String String :=
  .ok ("\x7b\"interval\":" ++ toString c.IntervalDays ++ "\x7d")

/-- The code of this package that is not among the sources, and the two
uses of encoding/json whose outcome depends on data outside the module.
`getData` returns nil (`none`) or the snapshot; it, `setLimit` and `clear`
have a pointer receiver, so each returns the receiver it leaves behind. -/
structure Engine (σ δ : Type) where
  getData : statsCtx σ → TimeUnit → Option δ × statsCtx σ
  setLimit : statsCtx σ → Int → statsCtx σ
  clear : statsCtx σ → statsCtx σ
  checkInterval : Nat → Bool
  jsonMarshal : δ → Except String String
  jsonDecode : String → Except String config

/-- The state of one execution: the receiver, the calls made so far (oldest
first), and whether the goroutine has panicked. -/
structure Proc (σ : Type) where
  s : statsCtx σ
  calls : List Call
  panicked : Bool

/-- The state in which an execution on receiver `s` starts. -/
def Proc.init {σ : Type} (s : statsCtx σ) : Proc σ :=
  { s := s, calls := [], panicked := false }

/-- Appends a call to the trace. -/
def Proc.record {σ : Type} (p : Proc σ) (c : Call) : Proc σ :=
  { p with calls := p.calls ++ [c] }

/-- A call through the function value `f`: a nil `f` panics, any other is
recorded as the call `c`.  Nothing runs after a panic. -/
def Proc.callFunc {σ : Type} (p : Proc σ) (f : Func) (c : Call) : Proc σ :=
  if p.panicked then p
  else
    match f with
    | .nil => { p with panicked := true }
    | .host => p.record c

/-- Go's `int(v)` for a uint32 `v`, with `int` 64 bits wide: exact. -/
def intOfUint32 (v : Nat) : Int :=
  Int.ofNat v

/-! ## stats_http.go: code -/

/-- Embeds `httpError`; `text` is the result of `fmt.Sprintf(format, args...)`. -/
def httpError {σ : Type} (r : Request) (w : ResponseWriter) (code : Nat) (text : String)
    (p : Proc σ) : ResponseWriter × Proc σ :=
  let p1 := p.record (.logInfo ("Stats: " ++ r.Method ++ " " ++ r.URL ++ ": " ++ text))
  (w.Error text code, p1)

/-- Embeds `handleStats` - Return data. -/
def handleStats {σ δ : Type} (E : Engine σ δ) (w : ResponseWriter) (r : Request)
    (p : Proc σ) : ResponseWriter × Proc σ :=
  let units := if p.s.limit / 24 > 7 then TimeUnit.Days else TimeUnit.Hours
  let p1 := p.record .startTimer
  let got := E.getData p1.s units
  let p2 := { p1 with s := got.2 }.record (.getData units)
  let p3 := p2.record (.logElapsed "Stats: prepared data")
  match got.1 with
  | none => httpError r w 500 "Couldn't get statistics data" p3
  | some d =>
    match E.jsonMarshal d with
    | .error err => httpError r w 500 ("json encode: " ++ err) p3
    | .ok data => ((w.Write data).1, p3)

/-- Embeds `handleStatsInfo` - Get configuration. -/
def handleStatsInfo {σ : Type} (w : ResponseWriter) (r : Request)
    (p : Proc σ) : ResponseWriter × Proc σ :=
  let resp : config := { IntervalDays := p.s.limit / 24 }
  match jsonMarshalConfig resp with
  | .error err => httpError r w 500 ("json encode: " ++ err) p
  | .ok data =>
    let w1 := w.setHeader "Content-Type" "application/json"
    let written := w1.Write data
    match written.2 with
    | some err => httpError r written.1 500 ("http write: " ++ err) p
    | none => (written.1, p)

/-- Embeds `handleStatsConfig` - Set configuration. -/
def handleStatsConfig {σ δ : Type} (E : Engine σ δ) (w : ResponseWriter) (r : Request)
    (p : Proc σ) : ResponseWriter × Proc σ :=
  match E.jsonDecode r.Body with
  | .error err => httpError r w 400 ("json decode: " ++ err) p
  | .ok reqData =>
    let p1 := p.record (.checkInterval reqData.IntervalDays)
    if !E.checkInterval reqData.IntervalDays then
      httpError r w 400 "Unsupported interval" p1
    else
      let p2 := { p1 with s := E.setLimit p1.s (intOfUint32 reqData.IntervalDays) }.record
        (.setLimit (intOfUint32 reqData.IntervalDays))
      (w, p2.callFunc p2.s.conf.ConfigModified .ConfigModified)

/-- Embeds `handleStatsReset` - Reset data. -/
def handleStatsReset {σ δ : Type} (E : Engine σ δ) (w : ResponseWriter) (_r : Request)
    (p : Proc σ) : ResponseWriter × Proc σ :=
  (w, { p with s := E.clear p.s }.record .clear)

/-- Embeds `initWeb` - Register web handlers. -/
def initWeb {σ : Type} (p : Proc σ) : Proc σ :=
  if p.s.conf.HTTPRegister = Func.nil then p
  else
    let p1 := p.callFunc p.s.conf.HTTPRegister
      (.HTTPRegister "GET" "/control/stats" .callsHandleStats)
    let p2 := p1.callFunc p1.s.conf.HTTPRegister
      (.HTTPRegister "POST" "/control/stats_reset" .callsHandleStatsReset)
    let p3 := p2.callFunc p2.s.conf.HTTPRegister
      (.HTTPRegister "POST" "/control/stats_config" .callsHandleStatsConfig)
    p3.callFunc p3.s.conf.HTTPRegister
      (.HTTPRegister "GET" "/control/stats_info" .callsHandleStatsInfo)

/-- The body of each function literal of `initWeb`: a call of one handler
on the same receiver. -/
def Closure.apply {σ δ : Type} (E : Engine σ δ) :
    Closure → ResponseWriter → Request → Proc σ → ResponseWriter × Proc σ
  | .callsHandleStats => handleStats E
  | .callsHandleStatsReset => handleStatsReset E
  | .callsHandleStatsConfig => handleStatsConfig E
  | .callsHandleStatsInfo => handleStatsInfo

/-! ## Reading the call trace -/

/-- The unit of a `getData` call, `none` for any other call. -/
def Call.getDataUnits : Call → Option TimeUnit
  | .getData units => some units
  | _ => none

/-- The argument of a `setLimit` call, `none` for any other call. -/
def Call.setLimitArg : Call → Option Int
  | .setLimit limitDays => some limitDays
  | _ => none

/-- The argument of a `checkInterval` call, `none` for any other call. -/
def Call.checkIntervalArg : Call → Option Nat
  | .checkInterval days => some days
  | _ => none

/-- The units of the `getData` calls of an execution, in order. -/
def Proc.queries {σ : Type} (p : Proc σ) : List TimeUnit :=
  p.calls.filterMap Call.getDataUnits

/-- How many times an execution called `ConfigModified`. -/
def Proc.notifications {σ : Type} (p : Proc σ) : Nat :=
  p.calls.count Call.ConfigModified

/-- How many times an execution called `clear`. -/
def Proc.clears {σ : Type} (p : Proc σ) : Nat :=
  p.calls.count Call.clear

/-! ## A sample engine

The theorems below hold for every `Engine`.  To evaluate the handlers at
concrete requests an instance is needed; this one follows the specification
of the missing code. -/

/-- Modelled from the spec: `checkInterval` is not among the sources.  The
specification gives the allow-list of supported retention intervals as
{1, 7, 30, 90, 365} days. -/
def checkInterval (days : Nat) : Bool :=
  days == 1 || days == 7 || days == 30 || days == 90 || days == 365

/-- Modelled from the spec: `setLimit` is not among the sources.  The
specification has it convert the interval to hours,
`limitHours = intervalDays * 24`; the product is taken in uint32.  The
eviction of buckets acts on state outside `limit` and `conf`. -/
def setLimit {σ : Type} (s : statsCtx σ) (limitDays : Int) : statsCtx σ :=
  { s with limit := (limitDays % 2 ^ 32).toNat * 24 % 2 ^ 32 }

/-- Modelled from the spec: `clear` is not among the sources.  The
specification has it discard all buckets and preserve the retention
configuration; the store of the sample engine is the list of per-hour query
totals. -/
def clear (s : statsCtx (List Nat)) : statsCtx (List Nat) :=
  { s with rest := [] }

/-- The value of a string of decimal digits, `none` when it is empty or has
another character. -/
def decimal? (cs : List Char) : Option Nat :=
  if cs = [] then none
  else cs.foldl (fun acc c =>
    match acc with
    | none => none
    | some n => if c.isDigit then some (n * 10 + (c.toNat - 48)) else none) (some 0)

/-- A decoder for request bodies of the exact form `{"interval":N}` with `N`
a decimal uint32; every other body is an error.  It stands in for
`json.NewDecoder(r.Body).Decode(&reqData)` in the sample engine. -/
def sampleDecode (body : String) : Except String config :=
  let cs := body.toList
  let opening := "\x7b\"interval\":".toList
  if cs.take opening.length = opening ∧ cs.getLast? = some '\x7d' then
    match decimal? ((cs.drop opening.length).dropLast) with
    | some n => if n < 2 ^ 32 then .ok { IntervalDays := n } else .error "cannot unmarshal number"
    | none => .error "invalid character"
  else .error "invalid character"

/-- Modelled from the spec: the engine is not among the sources.  A sample
engine over a store of per-hour query totals: `getData` fails when the
store is marked unreadable by `readable = false` and otherwise returns the
stored totals, `jsonMarshal` writes them as a JSON array. -/
def sampleEngine (readable : Bool) : Engine (List Nat) (List Nat) :=
  { getData := fun s _ => (if readable then some s.rest else none, s)
    setLimit := setLimit
    clear := clear
    checkInterval := checkInterval
    jsonMarshal := fun d => .ok ("[" ++ ",".intercalate (d.map toString) ++ "]")
    jsonDecode := sampleDecode }

/-- A configuration with both host callbacks set. -/
def sampleConfig : Config :=
  { Filename := "stats.db", LimitDays := 1, UnitID := .nil,
    ConfigModified := .host, HTTPRegister := .host }

/-- A receiver with the given retention limit (in hours) and configuration,
holding three hourly buckets. -/
def sampleCtx (limit : Nat) (conf : Config) : statsCtx (List Nat) :=
  { limit := limit, conf := conf, rest := [4, 0, 9] }

/-- A request with the given method, path and body. -/
def request (method url body : String) : Request :=
  { Method := method, URL := url, Body := body }

end stats

namespace stats

/-! ## Lemmas on the response writer and the trace -/

theorem status_Error_fresh (e : Option String) (text : String) (code : Nat) :
    ((ResponseWriter.fresh e).Error text code).status = some code := by
  simp [ResponseWriter.Error, ResponseWriter.Write, ResponseWriter.WriteHeader,
    ResponseWriter.setHeader, ResponseWriter.fresh]

theorem body_Error_fresh (e : Option String) (text : String) (code : Nat) :
    ((ResponseWriter.fresh e).Error text code).body = text ++ "\n" := by
  simp [ResponseWriter.Error, ResponseWriter.Write, ResponseWriter.WriteHeader,
    ResponseWriter.setHeader, ResponseWriter.fresh]

theorem status_Write_fresh (e : Option String) (data : String) :
    ((ResponseWriter.fresh e).Write data).1.status = some 200 := by
  simp [ResponseWriter.Write, ResponseWriter.WriteHeader, ResponseWriter.fresh]

theorem body_Write_fresh (e : Option String) (data : String) :
    ((ResponseWriter.fresh e).Write data).1.body = data := by
  simp [ResponseWriter.Write, ResponseWriter.WriteHeader, ResponseWriter.fresh]

theorem handleStats_nil {σ δ : Type} (E : Engine σ δ) (w : ResponseWriter) (r : Request)
    (s : statsCtx σ)
    (h : (E.getData s (if s.limit / 24 > 7 then TimeUnit.Days else TimeUnit.Hours)).1 = none) :
    handleStats E w r (Proc.init s) =
      (w.Error "Couldn't get statistics data" 500,
        { s := (E.getData s (if s.limit / 24 > 7 then TimeUnit.Days else TimeUnit.Hours)).2
          calls := [Call.startTimer,
            Call.getData (if s.limit / 24 > 7 then TimeUnit.Days else TimeUnit.Hours),
            Call.logElapsed "Stats: prepared data",
            Call.logInfo ("Stats: " ++ r.Method ++ " " ++ r.URL ++ ": " ++
              "Couldn't get statistics data")]
          panicked := false }) := by
  simp only [handleStats, Proc.init, Proc.record, httpError]
  rw [h]
  rfl

theorem handleStats_encode_error {σ δ : Type} (E : Engine σ δ) (w : ResponseWriter)
    (r : Request) (s : statsCtx σ) (d : δ) (err : String)
    (h : (E.getData s (if s.limit / 24 > 7 then TimeUnit.Days else TimeUnit.Hours)).1 = some d)
    (hm : E.jsonMarshal d = .error err) :
    handleStats E w r (Proc.init s) =
      (w.Error ("json encode: " ++ err) 500,
        { s := (E.getData s (if s.limit / 24 > 7 then TimeUnit.Days else TimeUnit.Hours)).2
          calls := [Call.startTimer,
            Call.getData (if s.limit / 24 > 7 then TimeUnit.Days else TimeUnit.Hours),
            Call.logElapsed "Stats: prepared data",
            Call.logInfo ("Stats: " ++ r.Method ++ " " ++ r.URL ++ ": " ++
              ("json encode: " ++ err))]
          panicked := false }) := by
  simp only [handleStats, Proc.init, Proc.record, httpError]
  rw [h]
  simp only [hm]
  rfl

theorem handleStats_ok {σ δ : Type} (E : Engine σ δ) (w : ResponseWriter)
    (r : Request) (s : statsCtx σ) (d : δ) (data : String)
    (h : (E.getData s (if s.limit / 24 > 7 then TimeUnit.Days else TimeUnit.Hours)).1 = some d)
    (hm : E.jsonMarshal d = .ok data) :
    handleStats E w r (Proc.init s) =
      ((w.Write data).1,
        { s := (E.getData s (if s.limit / 24 > 7 then TimeUnit.Days else TimeUnit.Hours)).2
          calls := [Call.startTimer,
            Call.getData (if s.limit / 24 > 7 then TimeUnit.Days else TimeUnit.Hours),
            Call.logElapsed "Stats: prepared data"]
          panicked := false }) := by
  simp only [handleStats, Proc.init, Proc.record]
  rw [h]
  simp only [hm]
  rfl

theorem handleStats_queries {σ δ : Type} (E : Engine σ δ) (w : ResponseWriter) (r : Request)
    (s : statsCtx σ) :
    (handleStats E w r (Proc.init s)).2.queries =
      [if s.limit / 24 > 7 then TimeUnit.Days else TimeUnit.Hours] := by
  cases h : (E.getData s (if s.limit / 24 > 7 then TimeUnit.Days else TimeUnit.Hours)).1 with
  | none =>
    rw [handleStats_nil E w r s h]
    rfl
  | some d =>
    cases hm : E.jsonMarshal d with
    | error err =>
      rw [handleStats_encode_error E w r s d err h hm]
      rfl
    | ok data =>
      rw [handleStats_ok E w r s d data h hm]
      rfl

theorem handleStatsConfig_decode_error {σ δ : Type} (E : Engine σ δ) (w : ResponseWriter)
    (r : Request) (p : Proc σ) (err : String) (hdec : E.jsonDecode r.Body = .error err) :
    handleStatsConfig E w r p =
      (w.Error ("json decode: " ++ err) 400,
        { p with calls := p.calls ++
            [Call.logInfo ("Stats: " ++ r.Method ++ " " ++ r.URL ++ ": " ++
              ("json decode: " ++ err))] }) := by
  simp only [handleStatsConfig, hdec, httpError, Proc.record]

theorem handleStatsConfig_unsupported {σ δ : Type} (E : Engine σ δ) (w : ResponseWriter)
    (r : Request) (p : Proc σ) (d : config) (hdec : E.jsonDecode r.Body = .ok d)
    (hrej : E.checkInterval d.IntervalDays = false) :
    handleStatsConfig E w r p =
      (w.Error "Unsupported interval" 400,
        { p with calls := p.calls ++ [Call.checkInterval d.IntervalDays] ++
            [Call.logInfo ("Stats: " ++ r.Method ++ " " ++ r.URL ++ ": " ++
              "Unsupported interval")] }) := by
  simp [handleStatsConfig, hdec, hrej, httpError, Proc.record]

theorem handleStatsConfig_supported {σ δ : Type} (E : Engine σ δ) (w : ResponseWriter)
    (r : Request) (s : statsCtx σ) (d : config) (hdec : E.jsonDecode r.Body = .ok d)
    (hacc : E.checkInterval d.IntervalDays = true) :
    handleStatsConfig E w r (Proc.init s) =
      (w, Proc.callFunc
        { s := E.setLimit s (Int.ofNat d.IntervalDays)
          calls := [Call.checkInterval d.IntervalDays, Call.setLimit (Int.ofNat d.IntervalDays)]
          panicked := false }
        (E.setLimit s (Int.ofNat d.IntervalDays)).conf.ConfigModified Call.ConfigModified) := by
  simp [handleStatsConfig, hdec, hacc, Proc.record, Proc.init, intOfUint32]

theorem handleStatsInfo_body {σ : Type} (e : Option String) (r : Request) (p : Proc σ) :
    (handleStatsInfo (ResponseWriter.fresh e) r p).1.body =
      "\x7b\"interval\":" ++ toString (p.s.limit / 24) ++ "\x7d" ++
        (match e with
          | none => ""
          | some err => "http write: " ++ err ++ "\n") := by
  cases e with
  | none =>
    simp [handleStatsInfo, jsonMarshalConfig, ResponseWriter.Write, ResponseWriter.WriteHeader,
      ResponseWriter.setHeader, ResponseWriter.fresh]
  | some err =>
    simp [handleStatsInfo, jsonMarshalConfig, ResponseWriter.Write, ResponseWriter.WriteHeader,
      ResponseWriter.setHeader, ResponseWriter.fresh, httpError, ResponseWriter.Error,
      String.append_assoc]

theorem handleStatsInfo_status {σ : Type} (e : Option String) (r : Request) (p : Proc σ) :
    (handleStatsInfo (ResponseWriter.fresh e) r p).1.status = some 200 := by
  cases e with
  | none =>
    simp [handleStatsInfo, jsonMarshalConfig, ResponseWriter.Write, ResponseWriter.WriteHeader,
      ResponseWriter.setHeader, ResponseWriter.fresh]
  | some err =>
    simp [handleStatsInfo, jsonMarshalConfig, ResponseWriter.Write, ResponseWriter.WriteHeader,
      ResponseWriter.setHeader, ResponseWriter.fresh, httpError, ResponseWriter.Error]

theorem days_test_iff (limit : Nat) : limit / 24 > 7 ↔ 192 ≤ limit := by
  omega

/-! ## The claims -/

/-- C1, as amended: for every retention limit `s.limit` (in hours),
`handleStats` queries the engine exactly once, on every path, with unit
Days when the limit is at least 8 * 24 = 192 hours (more than 7 whole days)
and with unit Hours otherwise. -/
theorem handleStats_queries_once {σ δ : Type} (E : Engine σ δ) (w : ResponseWriter)
    (r : Request) (s : statsCtx σ) :
    (handleStats E w r (Proc.init s)).2.queries =
      [if 192 ≤ s.limit then TimeUnit.Days else TimeUnit.Hours] := by
  rw [handleStats_queries E w r s]
  have hiff := days_test_iff s.limit
  by_cases h : 192 ≤ s.limit
  · rw [if_pos h, if_pos (hiff.mpr h)]
  · rw [if_neg h, if_neg (fun h3 => h (hiff.mp h3))]

/-- C1, as stated, fails: a retention limit of 169 hours is greater than
7 * 24 = 168, yet `handleStats` does not query with unit Days. -/
theorem handleStats_units_boundary_counterexample :
    ¬ ∀ (s : statsCtx (List Nat)), s.limit < 2 ^ 32 →
      (handleStats (sampleEngine true) (ResponseWriter.fresh none)
          (request "GET" "/control/stats" "") (Proc.init s)).2.queries =
        [if s.limit > 7 * 24 then TimeUnit.Days else TimeUnit.Hours] := by
  intro h
  have h169 := h (sampleCtx 169 sampleConfig) (by decide)
  revert h169
  decide

/-- C2: when the body decodes to an interval that `checkInterval` rejects,
`handleStatsConfig` answers 400, calls neither `setLimit` nor
`ConfigModified`, and leaves the receiver, hence the retention limit, as it
was. -/
theorem handleStatsConfig_rejects_unsupported {σ δ : Type} (E : Engine σ δ)
    (e : Option String) (r : Request) (s : statsCtx σ) (d : config)
    (hdec : E.jsonDecode r.Body = .ok d)
    (hrej : E.checkInterval d.IntervalDays = false) :
    (handleStatsConfig E (ResponseWriter.fresh e) r (Proc.init s)).1.status = some 400 ∧
    (handleStatsConfig E (ResponseWriter.fresh e) r (Proc.init s)).1.code = 400 ∧
    (handleStatsConfig E (ResponseWriter.fresh e) r (Proc.init s)).2.calls.filterMap
      Call.setLimitArg = [] ∧
    (handleStatsConfig E (ResponseWriter.fresh e) r (Proc.init s)).2.notifications = 0 ∧
    (handleStatsConfig E (ResponseWriter.fresh e) r (Proc.init s)).2.s = s ∧
    (handleStatsConfig E (ResponseWriter.fresh e) r (Proc.init s)).2.s.limit = s.limit ∧
    (handleStatsConfig E (ResponseWriter.fresh e) r (Proc.init s)).2.panicked = false := by
  rw [handleStatsConfig_unsupported E _ r _ d hdec hrej]
  simp [ResponseWriter.code, status_Error_fresh, Proc.notifications, Proc.init,
    Call.setLimitArg]

/-- C2 at a concrete request: the body `{"interval":3}` against the
allow-list {1, 7, 30, 90, 365}, on a receiver holding 24 hours. -/
theorem handleStatsConfig_rejects_unsupported_witness :
    sampleDecode "\x7b\"interval\":3\x7d" = .ok { IntervalDays := 3 } ∧
    checkInterval 3 = false ∧
    (handleStatsConfig (sampleEngine true) (ResponseWriter.fresh none)
        (request "POST" "/control/stats_config" "\x7b\"interval\":3\x7d")
        (Proc.init (sampleCtx 24 sampleConfig))).1.status = some 400 ∧
    (handleStatsConfig (sampleEngine true) (ResponseWriter.fresh none)
        (request "POST" "/control/stats_config" "\x7b\"interval\":3\x7d")
        (Proc.init (sampleCtx 24 sampleConfig))).2.s.limit = 24 :=
  have h := handleStatsConfig_rejects_unsupported (sampleEngine true) none
    (request "POST" "/control/stats_config" "\x7b\"interval\":3\x7d")
    (sampleCtx 24 sampleConfig) { IntervalDays := 3 } (by rfl) (by rfl)
  ⟨by rfl, by rfl, h.1, h.2.2.2.2.2.1⟩

/-- C3, as amended: when the body decodes to an interval `d` that
`checkInterval` accepts, and the callback `ConfigModified` is set (not nil)
in the configuration that `setLimit` leaves behind, the calls of
`handleStatsConfig` after the check are exactly `setLimit(int(d))` followed
by `ConfigModified()`, each once; nothing is written to the response, so
its status is 200. -/
theorem handleStatsConfig_sets_limit_then_notifies {σ δ : Type} (E : Engine σ δ)
    (e : Option String) (r : Request) (s : statsCtx σ) (d : config)
    (hdec : E.jsonDecode r.Body = .ok d)
    (hacc : E.checkInterval d.IntervalDays = true)
    (hcb : (E.setLimit s (Int.ofNat d.IntervalDays)).conf.ConfigModified = Func.host) :
    (handleStatsConfig E (ResponseWriter.fresh e) r (Proc.init s)).2.calls =
      [Call.checkInterval d.IntervalDays, Call.setLimit (Int.ofNat d.IntervalDays),
        Call.ConfigModified] ∧
    (handleStatsConfig E (ResponseWriter.fresh e) r (Proc.init s)).2.calls.filterMap
      Call.setLimitArg = [Int.ofNat d.IntervalDays] ∧
    (handleStatsConfig E (ResponseWriter.fresh e) r (Proc.init s)).2.notifications = 1 ∧
    (handleStatsConfig E (ResponseWriter.fresh e) r (Proc.init s)).2.s =
      E.setLimit s (Int.ofNat d.IntervalDays) ∧
    (handleStatsConfig E (ResponseWriter.fresh e) r (Proc.init s)).2.panicked = false ∧
    (handleStatsConfig E (ResponseWriter.fresh e) r (Proc.init s)).1 =
      ResponseWriter.fresh e ∧
    (handleStatsConfig E (ResponseWriter.fresh e) r (Proc.init s)).1.code = 200 := by
  rw [handleStatsConfig_supported E _ r s d hdec hacc, hcb]
  simp [Proc.callFunc, Proc.record, Proc.notifications, Call.setLimitArg,
    ResponseWriter.code, ResponseWriter.fresh]

/-- C3 at a concrete request: the body `{"interval":30}` on a receiver
holding 24 hours; the sample `setLimit` stores 720 hours. -/
theorem handleStatsConfig_sets_limit_then_notifies_witness :
    sampleDecode "\x7b\"interval\":30\x7d" = .ok { IntervalDays := 30 } ∧
    checkInterval 30 = true ∧
    (setLimit (sampleCtx 24 sampleConfig) 30).conf.ConfigModified = Func.host ∧
    (handleStatsConfig (sampleEngine true) (ResponseWriter.fresh none)
        (request "POST" "/control/stats_config" "\x7b\"interval\":30\x7d")
        (Proc.init (sampleCtx 24 sampleConfig))).2.calls =
      [Call.checkInterval 30, Call.setLimit 30, Call.ConfigModified] ∧
    (handleStatsConfig (sampleEngine true) (ResponseWriter.fresh none)
        (request "POST" "/control/stats_config" "\x7b\"interval\":30\x7d")
        (Proc.init (sampleCtx 24 sampleConfig))).2.s.limit = 720 :=
  have h := handleStatsConfig_sets_limit_then_notifies (sampleEngine true) none
    (request "POST" "/control/stats_config" "\x7b\"interval\":30\x7d")
    (sampleCtx 24 sampleConfig) { IntervalDays := 30 } (by rfl) (by rfl) (by rfl)
  ⟨by rfl, by rfl, by rfl, h.1, by rw [h.2.2.2.1]; rfl⟩

/-- C3, as stated, fails: the body `{"interval":7}` decodes to an interval
the check accepts, yet on a receiver whose `ConfigModified` is nil the
handler does not call `setLimit` once, then `ConfigModified` once, and
return: `setLimit(7)` is called, `ConfigModified` is never called, and the
execution ends in a panic. -/
theorem handleStatsConfig_notifies_counterexample :
    ¬ ∀ (s : statsCtx (List Nat)) (r : Request) (d : config),
      (sampleEngine true).jsonDecode r.Body = .ok d →
      (sampleEngine true).checkInterval d.IntervalDays = true →
      (handleStatsConfig (sampleEngine true) (ResponseWriter.fresh none) r
          (Proc.init s)).2.calls.filterMap Call.setLimitArg = [Int.ofNat d.IntervalDays] ∧
      (handleStatsConfig (sampleEngine true) (ResponseWriter.fresh none) r
          (Proc.init s)).2.notifications = 1 ∧
      (handleStatsConfig (sampleEngine true) (ResponseWriter.fresh none) r
          (Proc.init s)).2.panicked = false ∧
      (handleStatsConfig (sampleEngine true) (ResponseWriter.fresh none) r
          (Proc.init s)).1.code = 200 := by
  intro h
  have h7 := h (sampleCtx 24 { sampleConfig with ConfigModified := Func.nil })
    (request "POST" "/control/stats_config" "\x7b\"interval\":7\x7d")
    { IntervalDays := 7 } (by rfl) (by rfl)
  have hn := h7.2.1
  have hp := h7.2.2.1
  revert hn hp
  decide

/-- C6: when the body fails to decode, `handleStatsConfig` answers 400 and
returns at once: its only call is the log line of `httpError`, so
`checkInterval`, `setLimit` and `ConfigModified` are not called, and the
receiver, hence the retention limit, is as it was. -/
theorem handleStatsConfig_rejects_malformed {σ δ : Type} (E : Engine σ δ)
    (e : Option String) (r : Request) (s : statsCtx σ) (err : String)
    (hdec : E.jsonDecode r.Body = .error err) :
    (handleStatsConfig E (ResponseWriter.fresh e) r (Proc.init s)).1.status = some 400 ∧
    (handleStatsConfig E (ResponseWriter.fresh e) r (Proc.init s)).1.code = 400 ∧
    (handleStatsConfig E (ResponseWriter.fresh e) r (Proc.init s)).2.calls =
      [Call.logInfo ("Stats: " ++ r.Method ++ " " ++ r.URL ++ ": " ++
        ("json decode: " ++ err))] ∧
    (handleStatsConfig E (ResponseWriter.fresh e) r (Proc.init s)).2.calls.filterMap
      Call.checkIntervalArg = [] ∧
    (handleStatsConfig E (ResponseWriter.fresh e) r (Proc.init s)).2.calls.filterMap
      Call.setLimitArg = [] ∧
    (handleStatsConfig E (ResponseWriter.fresh e) r (Proc.init s)).2.notifications = 0 ∧
    (handleStatsConfig E (ResponseWriter.fresh e) r (Proc.init s)).2.s = s ∧
    (handleStatsConfig E (ResponseWriter.fresh e) r (Proc.init s)).2.s.limit = s.limit ∧
    (handleStatsConfig E (ResponseWriter.fresh e) r (Proc.init s)).2.panicked = false := by
  rw [handleStatsConfig_decode_error E _ r _ err hdec]
  simp [ResponseWriter.code, status_Error_fresh, Proc.notifications, Proc.init,
    Call.setLimitArg, Call.checkIntervalArg]

/-- C6 at a concrete request: the truncated body `{"interval":` on a
receiver holding 24 hours. -/
theorem handleStatsConfig_rejects_malformed_witness :
    sampleDecode "\x7b\"interval\":" = .error "invalid character" ∧
    (handleStatsConfig (sampleEngine true) (ResponseWriter.fresh none)
        (request "POST" "/control/stats_config" "\x7b\"interval\":")
        (Proc.init (sampleCtx 24 sampleConfig))).1.status = some 400 ∧
    (handleStatsConfig (sampleEngine true) (ResponseWriter.fresh none)
        (request "POST" "/control/stats_config" "\x7b\"interval\":")
        (Proc.init (sampleCtx 24 sampleConfig))).2.s.limit = 24 :=
  have h := handleStatsConfig_rejects_malformed (sampleEngine true) none
    (request "POST" "/control/stats_config" "\x7b\"interval\":")
    (sampleCtx 24 sampleConfig) "invalid character" (by rfl)
  ⟨by rfl, h.1, h.2.2.2.2.2.2.2.1⟩

/-- C4, as amended: `handleStatsReset` calls `clear` exactly once and makes
no other call; it does not call `ConfigModified`; it writes nothing to the
response, so the status is 200, and the receiver is the one `clear` leaves
behind. -/
theorem handleStatsReset_clears_once {σ δ : Type} (E : Engine σ δ) (e : Option String)
    (r : Request) (s : statsCtx σ) :
    (handleStatsReset E (ResponseWriter.fresh e) r (Proc.init s)).2.calls = [Call.clear] ∧
    (handleStatsReset E (ResponseWriter.fresh e) r (Proc.init s)).2.clears = 1 ∧
    (handleStatsReset E (ResponseWriter.fresh e) r (Proc.init s)).2.notifications = 0 ∧
    (handleStatsReset E (ResponseWriter.fresh e) r (Proc.init s)).2.s = E.clear s ∧
    (handleStatsReset E (ResponseWriter.fresh e) r (Proc.init s)).2.panicked = false ∧
    (handleStatsReset E (ResponseWriter.fresh e) r (Proc.init s)).1 = ResponseWriter.fresh e ∧
    (handleStatsReset E (ResponseWriter.fresh e) r (Proc.init s)).1.code = 200 := by
  simp [handleStatsReset, Proc.record, Proc.init, Proc.clears, Proc.notifications,
    ResponseWriter.code, ResponseWriter.fresh]

/-- C4, as stated, fails: on a receiver whose `ConfigModified` is set, a
reset request calls `clear` once and answers 200, but `ConfigModified` is
not called once: it is not called at all. -/
theorem handleStatsReset_notifies_counterexample :
    ¬ ((handleStatsReset (sampleEngine true) (ResponseWriter.fresh none)
          (request "POST" "/control/stats_reset" "")
          (Proc.init (sampleCtx 24 sampleConfig))).2.clears = 1 ∧
       (handleStatsReset (sampleEngine true) (ResponseWriter.fresh none)
          (request "POST" "/control/stats_reset" "")
          (Proc.init (sampleCtx 24 sampleConfig))).1.code = 200 ∧
       (handleStatsReset (sampleEngine true) (ResponseWriter.fresh none)
          (request "POST" "/control/stats_reset" "")
          (Proc.init (sampleCtx 24 sampleConfig))).2.notifications = 1) := by
  decide

/-- C5: when the `getData` call of `handleStats` returns nil, the response
has status 500 and its body is the diagnostic text, a non-empty string, and
nothing else; when it returns a snapshot that `json.Marshal` encodes to
`data`, the body is exactly `data` and the status is 200. -/
theorem handleStats_response {σ δ : Type} (E : Engine σ δ) (e : Option String)
    (r : Request) (s : statsCtx σ) :
    ((E.getData s (if s.limit / 24 > 7 then TimeUnit.Days else TimeUnit.Hours)).1 = none →
      (handleStats E (ResponseWriter.fresh e) r (Proc.init s)).1.status = some 500 ∧
      (handleStats E (ResponseWriter.fresh e) r (Proc.init s)).1.code = 500 ∧
      (handleStats E (ResponseWriter.fresh e) r (Proc.init s)).1.body =
        "Couldn't get statistics data\n" ∧
      (handleStats E (ResponseWriter.fresh e) r (Proc.init s)).1.body ≠ "") ∧
    (∀ (d : δ) (data : String),
      (E.getData s (if s.limit / 24 > 7 then TimeUnit.Days else TimeUnit.Hours)).1 = some d →
      E.jsonMarshal d = .ok data →
      (handleStats E (ResponseWriter.fresh e) r (Proc.init s)).1.body = data ∧
      (handleStats E (ResponseWriter.fresh e) r (Proc.init s)).1.status = some 200 ∧
      (handleStats E (ResponseWriter.fresh e) r (Proc.init s)).1.code = 200) := by
  constructor
  · intro h
    rw [handleStats_nil E _ r s h]
    refine ⟨status_Error_fresh e _ 500, ?_, body_Error_fresh e _ 500, ?_⟩
    · simp [ResponseWriter.code, status_Error_fresh]
    · rw [body_Error_fresh]
      decide
  · intro d data h hm
    rw [handleStats_ok E _ r s d data h hm]
    refine ⟨body_Write_fresh e data, status_Write_fresh e data, ?_⟩
    simp [ResponseWriter.code, status_Write_fresh]

/-- C5 at concrete requests: an unreadable store gives status 500 and the
diagnostic text; a readable store with totals 4, 0, 9 gives the body
`[4,0,9]`. -/
theorem handleStats_response_witness :
    ((sampleEngine false).getData (sampleCtx 24 sampleConfig) TimeUnit.Hours).1 = none ∧
    (handleStats (sampleEngine false) (ResponseWriter.fresh none)
        (request "GET" "/control/stats" "")
        (Proc.init (sampleCtx 24 sampleConfig))).1.status = some 500 ∧
    ((sampleEngine true).getData (sampleCtx 24 sampleConfig) TimeUnit.Hours).1 =
      some [4, 0, 9] ∧
    (sampleEngine true).jsonMarshal [4, 0, 9] = .ok "[4,0,9]" ∧
    (handleStats (sampleEngine true) (ResponseWriter.fresh none)
        (request "GET" "/control/stats" "")
        (Proc.init (sampleCtx 24 sampleConfig))).1.body = "[4,0,9]" :=
  ⟨by rfl,
   ((handleStats_response (sampleEngine false) none (request "GET" "/control/stats" "")
      (sampleCtx 24 sampleConfig)).1 (by rfl)).1,
   by rfl, by rfl,
   ((handleStats_response (sampleEngine true) none (request "GET" "/control/stats" "")
      (sampleCtx 24 sampleConfig)).2 [4, 0, 9] "[4,0,9]" (by rfl) (by rfl)).1⟩

/-- C7, as amended: for every `intervalDays` whose product with 24 fits in
32 bits, when the stored limit is `intervalDays * 24` (in uint32), the
quotient `s.limit / 24` is `intervalDays` and `handleStatsInfo` answers 200
with the document `{"interval":intervalDays}`; if the transport reports a
write error, the error text follows that document. -/
theorem handleStatsInfo_reports_interval {σ : Type} (r : Request) (s : statsCtx σ)
    (intervalDays : Nat) (hfit : intervalDays * 24 < 2 ^ 32)
    (hlim : s.limit = intervalDays * 24 % 2 ^ 32) :
    s.limit / 24 = intervalDays ∧
    jsonMarshalConfig { IntervalDays := intervalDays } =
      .ok (handleStatsInfo (ResponseWriter.fresh none) r (Proc.init s)).1.body ∧
    (handleStatsInfo (ResponseWriter.fresh none) r (Proc.init s)).1.status = some 200 ∧
    (∀ err : String, (handleStatsInfo (ResponseWriter.fresh (some err)) r (Proc.init s)).1.body =
      "\x7b\"interval\":" ++ toString intervalDays ++ "\x7d" ++
        ("http write: " ++ err ++ "\n")) := by
  have hq : s.limit / 24 = intervalDays := by
    rw [hlim, Nat.mod_eq_of_lt hfit]
    omega
  refine ⟨hq, ?_, handleStatsInfo_status none r _, ?_⟩
  · rw [handleStatsInfo_body none r (Proc.init s)]
    simp [jsonMarshalConfig, Proc.init, hq]
  · intro err
    rw [handleStatsInfo_body (some err) r (Proc.init s)]
    simp [Proc.init, hq]

/-- C7 at a concrete input: 365 days are stored as 8760 hours and reported
as 365. -/
theorem handleStatsInfo_reports_interval_witness :
    365 * 24 < 2 ^ 32 ∧ (sampleCtx 8760 sampleConfig).limit = 365 * 24 % 2 ^ 32 ∧
    (sampleCtx 8760 sampleConfig).limit / 24 = 365 ∧
    jsonMarshalConfig { IntervalDays := 365 } =
      .ok (handleStatsInfo (ResponseWriter.fresh none) (request "GET" "/control/stats_info" "")
        (Proc.init (sampleCtx 8760 sampleConfig))).1.body :=
  have h := handleStatsInfo_reports_interval (request "GET" "/control/stats_info" "")
    (sampleCtx 8760 sampleConfig) 365 (by decide) (by decide)
  ⟨by decide, by decide, h.1, h.2.1⟩

/-- C7, as stated, fails: `intervalDays = 178956971` is a uint32 whose
product with 24 wraps to 8 in uint32; with that limit stored,
`handleStatsInfo` reports 0. -/
theorem handleStatsInfo_roundtrip_counterexample :
    ¬ ∀ (intervalDays : Nat) (s : statsCtx (List Nat)), intervalDays < 2 ^ 32 →
      s.limit = intervalDays * 24 % 2 ^ 32 →
      jsonMarshalConfig { IntervalDays := intervalDays } =
        .ok (handleStatsInfo (ResponseWriter.fresh none)
          (request "GET" "/control/stats_info" "") (Proc.init s)).1.body := by
  intro h
  have h8 := h 178956971 (sampleCtx 8 sampleConfig) (by decide) (by decide)
  rw [handleStatsInfo_body none _ (Proc.init (sampleCtx 8 sampleConfig))] at h8
  have h9 := Except.ok.inj h8
  revert h9
  decide

/-- C8: with `HTTPRegister` set, `initWeb` calls it exactly four times, with
(GET, /control/stats), (POST, /control/stats_reset),
(POST, /control/stats_config) and (GET, /control/stats_info), in this order,
each with the function literal that calls the handler of that path; with
`HTTPRegister` nil it returns at once, having registered nothing, without a
panic. -/
theorem initWeb_registers_four {σ δ : Type} (E : Engine σ δ) (s : statsCtx σ) :
    (s.conf.HTTPRegister = Func.host →
      (initWeb (Proc.init s)).calls =
        [Call.HTTPRegister "GET" "/control/stats" Closure.callsHandleStats,
         Call.HTTPRegister "POST" "/control/stats_reset" Closure.callsHandleStatsReset,
         Call.HTTPRegister "POST" "/control/stats_config" Closure.callsHandleStatsConfig,
         Call.HTTPRegister "GET" "/control/stats_info" Closure.callsHandleStatsInfo] ∧
      (initWeb (Proc.init s)).calls.length = 4 ∧
      (initWeb (Proc.init s)).panicked = false ∧
      (initWeb (Proc.init s)).s = s) ∧
    (s.conf.HTTPRegister = Func.nil →
      (initWeb (Proc.init s)).calls = [] ∧
      (initWeb (Proc.init s)).panicked = false ∧
      (initWeb (Proc.init s)).s = s) ∧
    Closure.apply E Closure.callsHandleStats = handleStats E ∧
    Closure.apply E Closure.callsHandleStatsInfo = handleStatsInfo ∧
    Closure.apply E Closure.callsHandleStatsConfig = handleStatsConfig E ∧
    Closure.apply E Closure.callsHandleStatsReset = handleStatsReset E := by
  refine ⟨?_, ?_, rfl, rfl, rfl, rfl⟩
  · intro h
    simp [initWeb, Proc.callFunc, Proc.record, Proc.init, h]
  · intro h
    simp [initWeb, Proc.init, h]

/-- C8 at concrete receivers: one with `HTTPRegister` set, one with it
nil. -/
theorem initWeb_registers_four_witness :
    sampleConfig.HTTPRegister = Func.host ∧
    (initWeb (Proc.init (sampleCtx 24 sampleConfig))).calls.length = 4 ∧
    (initWeb (Proc.init (sampleCtx 24 { sampleConfig with HTTPRegister := Func.nil }))).calls
      = [] ∧
    (initWeb (Proc.init (sampleCtx 24
      { sampleConfig with HTTPRegister := Func.nil }))).panicked = false :=
  have h1 := (initWeb_registers_four (sampleEngine true) (sampleCtx 24 sampleConfig)).1
    (by rfl)
  have h2 := (initWeb_registers_four (sampleEngine true)
    (sampleCtx 24 { sampleConfig with HTTPRegister := Func.nil })).2.1 (by rfl)
  ⟨by rfl, h1.2.1, h2.1, h2.2.1⟩

/-- C9: for a retention of `d` whole days with `d * 24 < 2^32`, stored as
`s.limit = d * 24`, `handleStats` queries in Days exactly when `d > 7` and
in Hours otherwise: Hours for 1 and 7, Days for 30, 90 and 365; and on such
a limit the test `s.limit / 24 > 7` agrees with `s.limit > 7 * 24`. -/
theorem handleStats_units_whole_days {σ δ : Type} (E : Engine σ δ) (w : ResponseWriter)
    (r : Request) (s : statsCtx σ) (d : Nat) (hfit : d * 24 < 2 ^ 32)
    (hlim : s.limit = d * 24 % 2 ^ 32) :
    (handleStats E w r (Proc.init s)).2.queries =
      [if d > 7 then TimeUnit.Days else TimeUnit.Hours] ∧
    (d ∈ [1, 7] → (handleStats E w r (Proc.init s)).2.queries = [TimeUnit.Hours]) ∧
    (d ∈ [30, 90, 365] → (handleStats E w r (Proc.init s)).2.queries = [TimeUnit.Days]) ∧
    (s.limit / 24 > 7 ↔ s.limit > 7 * 24) := by
  have hl : s.limit = d * 24 := by rw [hlim, Nat.mod_eq_of_lt hfit]
  have hq : s.limit / 24 = d := by omega
  have hmain : (handleStats E w r (Proc.init s)).2.queries =
      [if d > 7 then TimeUnit.Days else TimeUnit.Hours] := by
    rw [handleStats_queries E w r s, hq]
  refine ⟨hmain, ?_, ?_, ?_⟩
  · intro hd
    rw [hmain]
    simp at hd
    rcases hd with rfl | rfl <;> rfl
  · intro hd
    rw [hmain]
    simp at hd
    rcases hd with rfl | rfl | rfl <;> rfl
  · omega

/-- C9 at a concrete input: 30 days, stored as 720 hours, are reported in
Days. -/
theorem handleStats_units_whole_days_witness :
    30 * 24 < 2 ^ 32 ∧ (sampleCtx 720 sampleConfig).limit = 30 * 24 % 2 ^ 32 ∧
    (handleStats (sampleEngine true) (ResponseWriter.fresh none)
        (request "GET" "/control/stats" "")
        (Proc.init (sampleCtx 720 sampleConfig))).2.queries = [TimeUnit.Days] :=
  have h := handleStats_units_whole_days (sampleEngine true) (ResponseWriter.fresh none)
    (request "GET" "/control/stats" "") (sampleCtx 720 sampleConfig) 30 (by decide)
    (by decide)
  ⟨by decide, by decide, h.2.2.1 (by decide)⟩

/-- C10, the code at the failing input: on a receiver whose `ConfigModified`
is nil, a request with the supported interval 7 passes the check, calls
`setLimit(7)`, and then panics on the call through the nil function value;
`ConfigModified` is not called. -/
theorem handleStatsConfig_nil_callback_panics :
    (handleStatsConfig (sampleEngine true) (ResponseWriter.fresh none)
        (request "POST" "/control/stats_config" "\x7b\"interval\":7\x7d")
        (Proc.init (sampleCtx 24 { sampleConfig with ConfigModified := Func.nil }))).2.panicked
      = true ∧
    (handleStatsConfig (sampleEngine true) (ResponseWriter.fresh none)
        (request "POST" "/control/stats_config" "\x7b\"interval\":7\x7d")
        (Proc.init (sampleCtx 24 { sampleConfig with ConfigModified := Func.nil }))).2.calls
      = [Call.checkInterval 7, Call.setLimit 7] ∧
    (handleStatsConfig (sampleEngine true) (ResponseWriter.fresh none)
        (request "POST" "/control/stats_config" "\x7b\"interval\":7\x7d")
        (Proc.init (sampleCtx 24 { sampleConfig with ConfigModified := Func.nil }))).2.s.limit
      = 168 := by
  decide

end stats
